import Mathlib

/-!
Verification of the shallow-shelf approximation solver core
(src/src/shallow_shelf.cpp and src/src/ice_surface.cpp).

The element-level helpers declared in elliptic_systems.hpp, the physical
constants of physical_constants.hpp and the thickness field of
ice_thickness.hpp are not part of src/; definitions for them are modelled
from the specification and carry a doc comment saying so.  Everything else
is translated directly from the two C++ source files.  Machine doubles are
modelled as real numbers, the C pow with real exponent as Real.rpow.
-/

set_option linter.unusedVariables false

namespace ShallowShelfApproximation

/-- Modelled from the spec: physical_constants.hpp is not in src/.  The spec
lists as fixed configuration the ice density, water density, gravitational
acceleration and the flow-law parameters (pre-exponential factor A0_cold,
activation energy Q_cold, gas constant idealgas, fixed temperature Temp)
used to derive the coefficient B. -/
structure PhysConsts where
  rho_ice : ℝ
  rho_water : ℝ
  gravity : ℝ
  A0_cold : ℝ
  Q_cold : ℝ
  idealgas : ℝ
  Temp : ℝ

/-- Points of the two-dimensional domain. -/
abbrev Point2 : Type := ℝ × ℝ

/-- Rank-2 tensors in two dimensions (velocity gradients, strain rates). -/
abbrev Tensor2 : Type := Fin 2 → Fin 2 → ℝ

/-- Rank-4 tensors in two dimensions (the stress-strain operator). -/
abbrev Tensor4 : Type := Fin 2 → Fin 2 → Fin 2 → Fin 2 → ℝ

/-- Modelled from the spec: EllipticSystems::get_strain (elliptic_systems.hpp
is not in src/).  The spec describes the strain-rate tensor as the symmetric
2x2 tensor built from the gradient of the 2-component velocity field. -/
noncomputable def get_strain (g : Tensor2) : Tensor2 :=
  fun i j => (g i j + g j i) / 2

/-- dealii first_invariant of a rank-2 tensor in two dimensions: the trace. -/
def first_invariant (e : Tensor2) : ℝ := e 0 0 + e 1 1

/-- dealii second_invariant of a rank-2 tensor in two dimensions: the
determinant. -/
def second_invariant (e : Tensor2) : ℝ := e 0 0 * e 1 1 - e 0 1 * e 1 0

/-- Modelled from the spec: EllipticSystems::stress_strain_tensor
(elliptic_systems.hpp is not in src/).  The spec describes a symmetric
rank-4 tensor parameterized by two scalars, an isotropic coefficient a and a
volumetric-correction coefficient b; applied to a symmetric strain tensor e
it yields a * e + b * trace(e) * I. -/
noncomputable def stress_strain_tensor (a b : ℝ) : Tensor4 :=
  fun i j k l =>
    a / 2 * ((if i = k then (1 : ℝ) else 0) * (if j = l then (1 : ℝ) else 0)
           + (if i = l then (1 : ℝ) else 0) * (if j = k then (1 : ℝ) else 0))
    + b * (if i = j then (1 : ℝ) else 0) * (if k = l then (1 : ℝ) else 0)

/-- Full double contraction G : C : H of two rank-2 tensors through a rank-4
tensor. -/
def dcontract (C : Tensor4) (G H : Tensor2) : ℝ :=
  ∑ i, ∑ j, ∑ k, ∑ l, G i j * C i j k l * H k l

/-- Model of the dealii FEValues object restricted to one cell: quadrature
point locations, integration weights (JxW), and the values and gradients of
the vector-valued shape functions at the quadrature points. -/
structure FEValuesCell (nq nd : ℕ) where
  qpoint : Fin nq → Point2
  JxW : Fin nq → ℝ
  shape_value : Fin nd → Fin nq → Fin 2 → ℝ
  shape_grad : Fin nd → Fin nq → Tensor2

/-- Modelled from the spec: EllipticSystems::fill_cell_matrix
(elliptic_systems.hpp is not in src/).  The spec: standard bilinear-form
assembly, entry (i,j) += grad phi_i : C : grad phi_j weighted by the
quadrature weight.  This is the increment added for one quadrature point;
the C++ accumulates these increments into the cell matrix. -/
def fill_cell_matrix {nq nd : ℕ} (C : Tensor4) (fev : FEValuesCell nq nd)
    (q : Fin nq) : Fin nd → Fin nd → ℝ :=
  fun i j => dcontract C (fev.shape_grad i q) (fev.shape_grad j q) * fev.JxW q

/-- src lines 34: the fixed reference strain rate seeding the first linear
solve. -/
noncomputable def strain_rate : ℝ := 0.2

/-- src lines 35-37: B = 0.5 * (A0_cold * exp(-Q_cold/(idealgas*Temp)))^(-1/3). -/
noncomputable def B (c : PhysConsts) : ℝ :=
  0.5 * Real.rpow (c.A0_cold * Real.exp (-c.Q_cold / (c.idealgas * c.Temp)))
    (-1 / 3 : ℝ)

/-- src line 38: nu_guess = B * pow(strain_rate * strain_rate, -1/3). -/
noncomputable def nu_guess (c : PhysConsts) : ℝ :=
  B c * Real.rpow (strain_rate * strain_rate) (-1 / 3 : ℝ)

/-- AssembleMatrixLinear::operator() (src lines 55-77): nu and thickness are
sampled at the quadrature points, nu_q = nu * thickness, and for each
quadrature point the operator stress_strain_tensor(2 * nu_q, nu_q) is
accumulated through fill_cell_matrix.  The assignment cell_matrix = 0.0 at
the top of the C++ body is translated by ignoring the incoming buffer and
summing the increments starting from zero. -/
noncomputable def AssembleMatrixLinear_op {nq nd : ℕ} (nu thickness : Point2 → ℝ)
    (fev : FEValuesCell nq nd) (cell_matrix : Fin nd → Fin nd → ℝ) :
    Fin nd → Fin nd → ℝ :=
  ∑ q, fill_cell_matrix
    (stress_strain_tensor (2 * (nu (fev.qpoint q) * thickness (fev.qpoint q)))
      (nu (fev.qpoint q) * thickness (fev.qpoint q)))
    fev q

/-- The viscosity computed at one quadrature point of the nonlinear
assembler (src lines 105-109): eps = get_strain(gradient), trace_eps =
first_invariant(eps), eps2 = trace_eps * trace_eps - second_invariant(eps),
nu = B * pow(eps2, -1/3) * thickness. -/
noncomputable def nonlinear_nu (c : PhysConsts) (h_q : ℝ) (g : Tensor2) : ℝ :=
  let eps := get_strain g
  let trace_eps := first_invariant eps
  let eps2 := trace_eps * trace_eps - second_invariant eps
  B c * Real.rpow eps2 (-1 / 3 : ℝ) * h_q

/-- AssembleMatrixNonLinear::operator() (src lines 93-120): thickness is
sampled at the quadrature points, the velocity gradient comes from the
finite-element gradient evaluation of the current solution, and for each
quadrature point the operator stress_strain_tensor(2 * nu, nu) built from
nonlinear_nu is accumulated through fill_cell_matrix.  As for the linear
variant, cell_matrix = 0.0 is translated by ignoring the incoming buffer. -/
noncomputable def AssembleMatrixNonLinear_op {nq nd : ℕ} (c : PhysConsts)
    (thickness : Point2 → ℝ) (velocity_gradient : Fin nq → Tensor2)
    (fev : FEValuesCell nq nd) (cell_matrix : Fin nd → Fin nd → ℝ) :
    Fin nd → Fin nd → ℝ :=
  ∑ q, fill_cell_matrix
    (stress_strain_tensor
      (2 * nonlinear_nu c (thickness (fev.qpoint q)) (velocity_gradient q))
      (nonlinear_nu c (thickness (fev.qpoint q)) (velocity_gradient q)))
    fev q

/-- Model of the dealii FEFaceValues object restricted to one face of a
cell, together with the face metadata the assembly loop queries: whether the
face lies on the mesh boundary and its boundary indicator tag. -/
structure FaceValues (nfq nd : ℕ) where
  at_boundary : Bool
  boundary_indicator : ℕ
  qpoint : Fin nfq → Point2
  normal_vector : Fin nfq → Fin 2 → ℝ
  JxW : Fin nfq → ℝ
  shape_value : Fin nd → Fin nfq → Fin 2 → ℝ

/-- Modelled from the spec: EllipticSystems::fill_cell_rhs_field
(elliptic_systems.hpp is not in src/).  The spec describes the load-vector
accumulation as adding, for each local degree of freedom, the inner product
of the force vector with the vector-valued shape function weighted by the
quadrature weight.  This is the increment for one quadrature point and one
degree of freedom. -/
def fill_cell_rhs_field (f : Fin 2 → ℝ) (phi : Fin 2 → ℝ) (w : ℝ) : ℝ :=
  (∑ comp, f comp * phi comp) * w

/-- Modelled from the spec: EllipticSystems::fill_cell_rhs_neumann
(elliptic_systems.hpp is not in src/).  Same accumulation shape as the field
term, taken over the face quadrature data. -/
def fill_cell_rhs_neumann (f : Fin 2 → ℝ) (phi : Fin 2 → ℝ) (w : ℝ) : ℝ :=
  (∑ comp, f comp * phi comp) * w

/-- The driving stress at a quadrature point (src lines 227-230):
-rho_ice * gravity * thickness * surface_gradient.  The thickness field is
a parameter because ice_thickness.hpp is not in src/; the spec treats
thickness as a scalar-field geometry input. -/
def driving_stress (c : PhysConsts) (thickness : Point2 → ℝ)
    (surface_gradient : Point2 → Fin 2 → ℝ) (x : Point2) : Fin 2 → ℝ :=
  fun comp => -c.rho_ice * c.gravity * thickness x * surface_gradient x comp

/-- The body-force (driving stress) part of the local load vector assembled
in ShallowShelf::assemble_system (src lines 224-238): for every quadrature
point, fill_cell_rhs_field of the driving stress sampled there. -/
def cell_rhs_body {nq nd : ℕ} (c : PhysConsts) (thickness : Point2 → ℝ)
    (surface_gradient : Point2 → Fin 2 → ℝ) (fev : FEValuesCell nq nd) :
    Fin nd → ℝ :=
  fun i => ∑ q,
    fill_cell_rhs_field (driving_stress c thickness surface_gradient (fev.qpoint q))
      (fun comp => fev.shape_value i q comp) (fev.JxW q)

/-- The Neumann value at one face quadrature point (src lines 253-261):
h = thickness(x), b = surface(x) - thickness(x), and the value is
0.5 * gravity * (rho_ice * h * h - rho_water * b * b) * normal. -/
def neumann_value (c : PhysConsts) (surface thickness : Point2 → ℝ)
    (x : Point2) (n : Fin 2 → ℝ) : Fin 2 → ℝ :=
  fun comp =>
    let h := thickness x
    let b := surface x - thickness x
    0.5 * c.gravity * (c.rho_ice * h * h - c.rho_water * b * b) * n comp

/-- The contribution of one face to the local load vector (src lines
243-270): only faces that are at the boundary and carry boundary indicator 1
contribute, and then every face quadrature point adds
fill_cell_rhs_neumann of the neumann_value there. -/
def face_rhs {nfq nd : ℕ} (c : PhysConsts) (surface thickness : Point2 → ℝ)
    (face : FaceValues nfq nd) : Fin nd → ℝ :=
  fun i =>
    if face.at_boundary = true ∧ face.boundary_indicator = 1 then
      ∑ q, fill_cell_rhs_neumann
        (neumann_value c surface thickness (face.qpoint q) (face.normal_vector q))
        (fun comp => face.shape_value i q comp) (face.JxW q)
    else 0

/-- The Neumann part of the local load vector: the sum over the four faces
of a quadrilateral cell (GeometryInfo<2>::faces_per_cell = 4). -/
def cell_rhs_neumann {nfq nd : ℕ} (c : PhysConsts)
    (surface thickness : Point2 → ℝ) (faces : Fin 4 → FaceValues nfq nd) :
    Fin nd → ℝ :=
  fun i => ∑ f, face_rhs c surface thickness (faces f) i

/-- The full local load vector of one cell as assembled in
ShallowShelf::assemble_system: driving-stress body force plus the
calving-front Neumann contributions of the cell's faces. -/
def cell_rhs_total {nq nfq nd : ℕ} (c : PhysConsts)
    (surface thickness : Point2 → ℝ) (surface_gradient : Point2 → Fin 2 → ℝ)
    (fev : FEValuesCell nq nd) (faces : Fin 4 → FaceValues nfq nd) :
    Fin nd → ℝ :=
  fun i => cell_rhs_body c thickness surface_gradient fev i
    + cell_rhs_neumann c surface thickness faces i

/-- The assembler choice made inside ShallowShelf::solve: iteration 0 builds
an AssembleMatrixLinear from a constant viscosity function, later iterations
build an AssembleMatrixNonLinear from the current solution vector. -/
inductive AssemblerChoice (Sol : Type) where
  | linear (nu : ℝ)
  | nonlinear (velocity : Sol)

/-- Modelled from the spec: the collaborators ShallowShelf::solve calls into
(global assembly product, dealii boundary-value application, SparseILU
preconditioner, conjugate-gradient solver and hanging-node constraint
distribution) live outside the core.  The conjugate-gradient solver is
described by the number of iterations it needs for a given tolerance,
system, preconditioner and start vector, the solution it returns on
convergence, and the error it raises on failure. -/
structure SolveEnv (Sys Pre Sol Err : Type) where
  assemble_system : AssemblerChoice Sol → Sys
  apply_boundary_values : Sol → Sol
  precondition : Sys → Pre
  cg_iters_needed : ℝ → Sys → Pre → Sol → ℕ
  cg_result : Sys → Pre → Sol → Sol
  cg_failure : Sys → Err
  distribute : Sol → Sol

/-- src line 308: SolverControl solver_control (1000, 1.0e-12), the
iteration cap. -/
def solver_control_max_steps : ℕ := 1000

/-- src line 308: SolverControl solver_control (1000, 1.0e-12), the
residual tolerance. -/
noncomputable def solver_control_tolerance : ℝ := 1 / 1000000000000

/-- Modelled from the spec: the dealii conjugate-gradient solve either
converges within the iteration cap and returns a solution, or fails as a
hard error that propagates to the caller. -/
def cg_solve {Sys Pre Sol Err : Type} (E : SolveEnv Sys Pre Sol Err)
    (tol : ℝ) (cap : ℕ) (sys : Sys) (p : Pre) (s : Sol) : Except Err Sol :=
  if E.cg_iters_needed tol sys p s ≤ cap then Except.ok (E.cg_result sys p s)
  else Except.error (E.cg_failure sys)

/-- One Picard iteration of ShallowShelf::solve (src lines 313-338): build
the chosen assembler and assemble the system (assemble_system ends by
applying the Dirichlet boundary values, which also writes them into the
solution vector), initialize the preconditioner from the freshly assembled
matrix, run the conjugate-gradient solve starting from the current solution,
then distribute the hanging-node constraints over the result. -/
noncomputable def picard_iteration {Sys Pre Sol Err : Type} (E : SolveEnv Sys Pre Sol Err)
    (choice : AssemblerChoice Sol) (s : Sol) : Except Err Sol :=
  let sys := E.assemble_system choice
  let s1 := E.apply_boundary_values s
  let p := E.precondition sys
  Except.map E.distribute
    (cg_solve E solver_control_tolerance solver_control_max_steps sys p s1)

/-- ShallowShelf::solve (src lines 306-340): five Picard iterations;
iteration 0 uses the linear assembler with the constant viscosity nu_guess,
every later iteration uses the nonlinear assembler evaluated at the current
solution. -/
noncomputable def ShallowShelf_solve {Sys Pre Sol Err : Type}
    (c : PhysConsts) (E : SolveEnv Sys Pre Sol Err) (sol : Sol) :
    Except Err Sol :=
  (List.range 5).foldlM
    (fun s iteration =>
      picard_iteration E
        (if iteration = 0 then AssemblerChoice.linear (nu_guess c)
         else AssemblerChoice.nonlinear s) s)
    sol

/-- Abstract events emitted by the adaptive-refinement driver, used to state
claims about the control flow of ShallowShelf::run, ShallowShelf::refine_grid
and ShallowShelf::setup_system. -/
inductive RunEvent where
  | refineGlobal (times : ℕ)
  | estimateError
  | markFixedNumber (refineFraction coarsenFraction : ℚ)
  | executeRefinement
  | distributeDofs
  | interpolateSolution
  | imposeDirichlet (boundaryId : ℕ)
  | rebuildConstraints
  | distributeConstraints
  | interpolateBoundaryVelocity
  | reinitSystem
  | solveNonlinear
  | outputResults (cycle : ℕ)
deriving DecidableEq, Repr

/-- Event trace of ShallowShelf::setup_system (src lines 146-177): on the
initial step it distributes the degrees of freedom, rebuilds the
hanging-node constraints and interpolates the boundary velocity into the
solution vector; in every case it rebuilds the sparsity pattern and
reinitializes the global matrix and right-hand side to the current
degree-of-freedom count. -/
def setup_system_trace (initial_step : Bool) : List RunEvent :=
  (if initial_step then
    [RunEvent.distributeDofs, RunEvent.rebuildConstraints,
     RunEvent.interpolateBoundaryVelocity]
   else []) ++ [RunEvent.reinitSystem]

/-- Event trace of ShallowShelf::refine_grid (src lines 343-390): estimate
the per-cell error from the current solution, mark a top fraction 0.3 for
refinement and a bottom fraction 0.03 for coarsening with the fixed-number
policy, execute the refinement, redistribute the degrees of freedom,
interpolate the old solution onto the new mesh, overwrite the boundary
degrees of freedom of boundary indicator 0 with exact Dirichlet values,
rebuild and distribute the hanging-node constraints, and finish with
setup_system(false). -/
def refine_grid_trace : List RunEvent :=
  [RunEvent.estimateError, RunEvent.markFixedNumber (3 / 10) (3 / 100),
   RunEvent.executeRefinement, RunEvent.distributeDofs,
   RunEvent.interpolateSolution, RunEvent.imposeDirichlet 0,
   RunEvent.rebuildConstraints, RunEvent.distributeConstraints]
  ++ setup_system_trace false

/-- Event trace of one cycle of ShallowShelf::run (src lines 415-441):
cycle 0 refines the mesh globally (twice); every later cycle calls
refine_grid; then setup_system(cycle == 0), the nonlinear solve, and the
output of the results for this cycle. -/
def run_cycle_trace (cycle : ℕ) : List RunEvent :=
  (if cycle = 0 then [RunEvent.refineGlobal 2] else refine_grid_trace)
  ++ setup_system_trace (cycle = 0)
  ++ [RunEvent.solveNonlinear, RunEvent.outputResults cycle]

/-- Event trace of ShallowShelf::run: three cycles. -/
def run_trace : List RunEvent :=
  (List.range 3).flatMap run_cycle_trace

/-- Spec-side viscosity for the nonlinear mode, written from the claim:
nu = B * eps2^(-1/3) with eps2 = trace(eps)^2 - second_invariant(eps), eps
the symmetric strain-rate tensor of the velocity gradient, and
B = 0.5 * (A0_cold * exp(-Q_cold/(idealgas*Temp)))^(-1/3).  Thickness is
not part of this viscosity; it is applied when the operator is built. -/
noncomputable def nu_spec (c : PhysConsts) (g : Tensor2) : ℝ :=
  let eps := get_strain g
  let eps2 := (first_invariant eps) ^ 2 - second_invariant eps
  (0.5 * Real.rpow (c.A0_cold * Real.exp (-c.Q_cold / (c.idealgas * c.Temp)))
    (-1 / 3 : ℝ)) * Real.rpow eps2 (-1 / 3 : ℝ)

/-- Spec-side nonlinear assembly, written from the claim: at every
quadrature point the operator is built as
stress_strain(2 * nu * h, nu * h) from the spec-side viscosity nu and the
thickness h sampled at that quadrature point. -/
noncomputable def AssembleMatrixNonLinear_spec {nq nd : ℕ} (c : PhysConsts)
    (thickness : Point2 → ℝ) (velocity_gradient : Fin nq → Tensor2)
    (fev : FEValuesCell nq nd) : Fin nd → Fin nd → ℝ :=
  ∑ q, fill_cell_matrix
    (stress_strain_tensor
      (2 * nu_spec c (velocity_gradient q) * thickness (fev.qpoint q))
      (nu_spec c (velocity_gradient q) * thickness (fev.qpoint q)))
    fev q

/-- Spec-side Neumann value, written from the claim:
0.5 * g * (rho_ice * h(x)^2 - rho_water * b(x)^2) * n with
b = surface(x) - thickness(x). -/
def neumann_value_spec (c : PhysConsts) (surface thickness : Point2 → ℝ)
    (x : Point2) (n : Fin 2 → ℝ) : Fin 2 → ℝ :=
  fun comp =>
    0.5 * c.gravity * (c.rho_ice * (thickness x) ^ 2
      - c.rho_water * (surface x - thickness x) ^ 2) * n comp

/-- Spec-side per-face Neumann load, written from the claim: only faces on
the mesh boundary carrying boundary tag 1 contribute, all other faces
receive no Neumann contribution. -/
def face_rhs_spec {nfq nd : ℕ} (c : PhysConsts)
    (surface thickness : Point2 → ℝ) (face : FaceValues nfq nd) :
    Fin nd → ℝ :=
  fun i =>
    if face.at_boundary = true ∧ face.boundary_indicator = 1 then
      ∑ q, (∑ comp,
        neumann_value_spec c surface thickness (face.qpoint q)
          (face.normal_vector q) comp * face.shape_value i q comp)
        * face.JxW q
    else 0

/-- Spec-side driving stress, written from the claim:
-rho_ice * g * h(x) * grad_s(x). -/
def driving_stress_spec (c : PhysConsts) (thickness : Point2 → ℝ)
    (surface_gradient : Point2 → Fin 2 → ℝ) (x : Point2) : Fin 2 → ℝ :=
  fun comp => -(c.rho_ice * c.gravity * thickness x * surface_gradient x comp)

/-- Spec-side Picard chain, written from the claim: exactly five
iterations; iteration 0 assembles with the linear assembler at the constant
viscosity B * (0.2^2)^(-1/3) and never reads the velocity field, and each
of iterations 1 through 4 assembles with the nonlinear assembler evaluated
at the velocity produced by the immediately preceding iteration; each
iteration solves and then distributes the hanging-node constraints. -/
noncomputable def picard_chain_spec {Sys Pre Sol Err : Type} (c : PhysConsts)
    (E : SolveEnv Sys Pre Sol Err) (s0 : Sol) : Except Err Sol :=
  picard_iteration E
      (AssemblerChoice.linear (B c * Real.rpow ((0.2 : ℝ) ^ 2) (-1 / 3 : ℝ)))
      s0 >>= fun s1 =>
  picard_iteration E (AssemblerChoice.nonlinear s1) s1 >>= fun s2 =>
  picard_iteration E (AssemblerChoice.nonlinear s2) s2 >>= fun s3 =>
  picard_iteration E (AssemblerChoice.nonlinear s3) s3 >>= fun s4 =>
  picard_iteration E (AssemblerChoice.nonlinear s4) s4

/-- Concrete cell data for witnesses and counterexamples: one quadrature
point, one local degree of freedom, unit weights and unit shape values. -/
noncomputable def fevCx : FEValuesCell 1 1 where
  qpoint := fun _ => (0, 0)
  JxW := fun _ => 1
  shape_value := fun _ _ _ => 1
  shape_grad := fun _ _ _ _ => 0

/-- Concrete boundary face carrying the calving-front tag 1, with outward
normal (1, 0), unit weight and unit shape values. -/
noncomputable def faceCx : FaceValues 1 1 where
  at_boundary := true
  boundary_indicator := 1
  qpoint := fun _ => (0, 0)
  normal_vector := fun _ comp => if comp = 0 then 1 else 0
  JxW := fun _ => 1
  shape_value := fun _ _ _ => 1

/-- Concrete interior face: not at the boundary. -/
noncomputable def faceInteriorCx : FaceValues 1 1 :=
  { faceCx with at_boundary := false }

/-- Concrete boundary face carrying tag 0 (the Dirichlet boundary). -/
noncomputable def faceDirichletCx : FaceValues 1 1 :=
  { faceCx with boundary_indicator := 0 }

/-- Concrete face assignment for one cell: face 0 is the tagged
calving-front face, the other three faces are interior. -/
noncomputable def facesCx : Fin 4 → FaceValues 1 1
  | 0 => faceCx
  | _ => faceInteriorCx

/-- Concrete physical constants used in witnesses and counterexamples. -/
noncomputable def constsCx : PhysConsts :=
  { rho_ice := 900, rho_water := 1000, gravity := 10,
    A0_cold := 1, Q_cold := 1, idealgas := 1, Temp := 1 }

/-- Concrete solver environment over trivial types in which the
conjugate-gradient solve always needs 1001 iterations, one more than the
cap. -/
def solveEnvW : SolveEnv Unit Unit Unit Unit where
  assemble_system := fun _ => ()
  apply_boundary_values := id
  precondition := fun _ => ()
  cg_iters_needed := fun _ _ _ _ => 1001
  cg_result := fun _ _ _ => ()
  cg_failure := fun _ => ()
  distribute := id

end ShallowShelfApproximation

/-- IceSurface::value (src/src/ice_surface.cpp lines 14-20):
max(bed + thickness, (1 - rho_ice/rho_water) * thickness); the component
argument is ignored by the body. -/
noncomputable def IceSurface.value (c : ShallowShelfApproximation.PhysConsts)
    (bed thickness : ShallowShelfApproximation.Point2 → ℝ)
    (x : ShallowShelfApproximation.Point2) (component : ℕ) : ℝ :=
  let h := thickness x
  let b := bed x
  max (b + h) ((1 - c.rho_ice / c.rho_water) * h)

namespace ShallowShelfApproximation

/-- The double contraction through a stress-strain operator is symmetric in
its two rank-2 arguments: the major symmetry of the rank-4 tensor. -/
theorem dcontract_stress_strain_comm (a b : ℝ) (G H : Tensor2) :
    dcontract (stress_strain_tensor a b) G H
      = dcontract (stress_strain_tensor a b) H G := by
  simp [dcontract, stress_strain_tensor, Fin.sum_univ_two]
  ring

/-- The stress-strain operator with both coefficients zero is the zero
tensor. -/
theorem stress_strain_tensor_zero_zero :
    stress_strain_tensor 0 0 = fun _ _ _ _ => (0 : ℝ) := by
  funext i j k l
  simp [stress_strain_tensor]

/-- Double contraction through the zero rank-4 tensor vanishes. -/
theorem dcontract_zero (G H : Tensor2) :
    dcontract (fun _ _ _ _ => (0 : ℝ)) G H = 0 := by
  simp [dcontract]

/-- C6: for every element and every viscosity sample (the constant guess of
the linear assembler or a viscosity computed from any velocity-gradient
field by the nonlinear assembler), the local stiffness matrix is symmetric:
entry (i, j) equals entry (j, i). -/
theorem cell_matrix_symmetric {nq nd : ℕ} (c : PhysConsts)
    (nu thickness : Point2 → ℝ) (velocity_gradient : Fin nq → Tensor2)
    (fev : FEValuesCell nq nd) (cm cm' : Fin nd → Fin nd → ℝ) (i j : Fin nd) :
    AssembleMatrixLinear_op nu thickness fev cm i j
      = AssembleMatrixLinear_op nu thickness fev cm j i
    ∧ AssembleMatrixNonLinear_op c thickness velocity_gradient fev cm' i j
      = AssembleMatrixNonLinear_op c thickness velocity_gradient fev cm' j i := by
  constructor <;>
  · simp only [AssembleMatrixLinear_op, AssembleMatrixNonLinear_op,
      Finset.sum_apply, fill_cell_matrix]
    exact Finset.sum_congr rfl fun q _ => by rw [dcontract_stress_strain_comm]

/-- C10: both assembler variants reset the caller-supplied cell-matrix
buffer before accumulating, so the produced local stiffness matrix is
identical for every prior content of that buffer; the operation writes
nothing outside the buffer it returns. -/
theorem assembler_ignores_buffer {nq nd : ℕ} (c : PhysConsts)
    (nu thickness : Point2 → ℝ) (velocity_gradient : Fin nq → Tensor2)
    (fev : FEValuesCell nq nd) (cm cm' : Fin nd → Fin nd → ℝ) :
    AssembleMatrixLinear_op nu thickness fev cm
      = AssembleMatrixLinear_op nu thickness fev cm'
    ∧ AssembleMatrixNonLinear_op c thickness velocity_gradient fev cm
      = AssembleMatrixNonLinear_op c thickness velocity_gradient fev cm' :=
  ⟨rfl, rfl⟩

/-- C9: IceSurface::value returns the larger of the grounded surface
elevation bed + thickness and the flotation height
(1 - rho_ice/rho_water) * thickness, and the component argument has no
effect on the result. -/
theorem ice_surface_value_max (c : PhysConsts)
    (bed thickness : Point2 → ℝ) (x : Point2) (component component' : ℕ) :
    IceSurface.value c bed thickness x component
      = max (bed x + thickness x)
          ((1 - c.rho_ice / c.rho_water) * thickness x)
    ∧ IceSurface.value c bed thickness x component
      = IceSurface.value c bed thickness x component' :=
  ⟨rfl, rfl⟩

/-- C4: the body-force contribution to the local load vector is the driving
stress -rho_ice * g * h(x) * grad_s(x) paired with the shape functions and
quadrature weights, and on any cell whose surface gradient vanishes at all
quadrature points the body-force contribution is exactly zero, for every
thickness field. -/
theorem driving_stress_body_force {nq nd : ℕ} (c : PhysConsts)
    (thickness : Point2 → ℝ) (surface_gradient : Point2 → Fin 2 → ℝ)
    (fev : FEValuesCell nq nd) :
    cell_rhs_body c thickness surface_gradient fev
      = (fun i => ∑ q, (∑ comp,
          driving_stress_spec c thickness surface_gradient (fev.qpoint q) comp
            * fev.shape_value i q comp) * fev.JxW q)
    ∧ cell_rhs_body c thickness (fun _ _ => 0) fev = fun _ => 0 := by
  constructor
  · funext i
    simp [cell_rhs_body, fill_cell_rhs_field, driving_stress,
      driving_stress_spec, neg_mul]
  · funext i
    simp [cell_rhs_body, fill_cell_rhs_field, driving_stress]


/-- C5 (amended): over an element with uniformly zero ice thickness, the
local stiffness matrix of either assembler variant and the driving-stress
body-force load contribution are exactly zero; the full load vector
including the calving-front Neumann term is exactly zero when the surface
elevation is also zero there (the Neumann term depends on the ice-base
depth b = surface - thickness, which zero thickness alone does not
annihilate). -/
theorem zero_thickness_amended {nq nfq nd : ℕ} (c : PhysConsts)
    (nu surface : Point2 → ℝ) (surface_gradient : Point2 → Fin 2 → ℝ)
    (velocity_gradient : Fin nq → Tensor2) (fev : FEValuesCell nq nd)
    (faces : Fin 4 → FaceValues nfq nd) (cm cm' : Fin nd → Fin nd → ℝ) :
    AssembleMatrixLinear_op nu (fun _ => 0) fev cm = (fun _ _ => 0)
    ∧ AssembleMatrixNonLinear_op c (fun _ => 0) velocity_gradient fev cm'
        = (fun _ _ => 0)
    ∧ cell_rhs_body c (fun _ => 0) surface_gradient fev = (fun _ => 0)
    ∧ cell_rhs_total c (fun _ => 0) (fun _ => 0) surface_gradient fev faces
        = (fun _ => 0) := by
  refine ⟨?_, ?_, ?_, ?_⟩
  · funext i j
    simp [AssembleMatrixLinear_op, Finset.sum_apply, fill_cell_matrix,
      stress_strain_tensor_zero_zero, dcontract_zero]
  · funext i j
    simp [AssembleMatrixNonLinear_op, Finset.sum_apply, fill_cell_matrix,
      nonlinear_nu, stress_strain_tensor_zero_zero, dcontract_zero]
  · funext i
    simp [cell_rhs_body, fill_cell_rhs_field, driving_stress]
  · funext i
    simp [cell_rhs_total, cell_rhs_body, cell_rhs_neumann, face_rhs,
      fill_cell_rhs_field, fill_cell_rhs_neumann, neumann_value,
      driving_stress]

/-- C5 (counterexample): with uniformly zero thickness but surface
elevation 1, a cell whose face 0 is a boundary face tagged 1 receives a
nonzero calving-front Neumann load: the claim that the full load vector is
exactly zero fails at this input. -/
theorem zero_thickness_counterexample :
    cell_rhs_total constsCx (fun _ => (1 : ℝ)) (fun _ => 0) (fun _ _ => 0)
      fevCx facesCx 0 ≠ 0 := by
  norm_num [cell_rhs_total, cell_rhs_body, cell_rhs_neumann, face_rhs,
    fill_cell_rhs_field, fill_cell_rhs_neumann, neumann_value,
    driving_stress, fevCx, facesCx, faceCx, faceInteriorCx, constsCx,
    Fin.sum_univ_four, Fin.sum_univ_two, Fin.sum_univ_one]

/-- C1: in the nonlinear-mode assembly, the viscosity at every quadrature
point is nu = B * eps2^(-1/3) with
eps2 = trace(eps)^2 - second_invariant(eps), eps the symmetric strain-rate
tensor of the current velocity gradient and
B = 0.5 * (A0_cold * exp(-Q_cold/(idealgas*Temp)))^(-1/3), and the operator
is built as stress_strain(2 * nu * h, nu * h) with the thickness h sampled
at that quadrature point: the source assembly coincides with the spec-side
assembly built that way. -/
theorem nonlinear_viscosity_glen_law {nq nd : ℕ} (c : PhysConsts)
    (thickness : Point2 → ℝ) (velocity_gradient : Fin nq → Tensor2)
    (fev : FEValuesCell nq nd) (cm : Fin nd → Fin nd → ℝ) :
    (∀ (h_q : ℝ) (g : Tensor2),
      stress_strain_tensor (2 * nonlinear_nu c h_q g) (nonlinear_nu c h_q g)
        = stress_strain_tensor (2 * nu_spec c g * h_q) (nu_spec c g * h_q))
    ∧ AssembleMatrixNonLinear_op c thickness velocity_gradient fev cm
        = AssembleMatrixNonLinear_spec c thickness velocity_gradient fev := by
  have hnu : ∀ (h_q : ℝ) (g : Tensor2),
      nonlinear_nu c h_q g = nu_spec c g * h_q := by
    intro h_q g
    simp [nonlinear_nu, nu_spec, B, pow_two]
  constructor
  · intro h_q g
    rw [hnu, mul_assoc]
  · unfold AssembleMatrixNonLinear_op AssembleMatrixNonLinear_spec
    exact Finset.sum_congr rfl fun q _ => by rw [hnu, mul_assoc]

/-- C2: the calving-front Neumann load is added only for faces on the mesh
boundary carrying boundary tag 1, with the value
0.5 * g * (rho_ice * h(x)^2 - rho_water * b(x)^2) * n at every face
quadrature point, b = surface - thickness; faces with any other tag
contribute nothing.  The cell-level Neumann load of the source coincides
with the spec-side per-face loads, and any face failing the tag test
contributes the zero vector. -/
theorem calving_front_neumann {nfq nd : ℕ} (c : PhysConsts)
    (surface thickness : Point2 → ℝ) (faces : Fin 4 → FaceValues nfq nd) :
    (cell_rhs_neumann c surface thickness faces
      = fun i => ∑ f, face_rhs_spec c surface thickness (faces f) i)
    ∧ ∀ face : FaceValues nfq nd,
        ¬ (face.at_boundary = true ∧ face.boundary_indicator = 1) →
        face_rhs c surface thickness face = (fun _ => 0) := by
  have hface : ∀ face : FaceValues nfq nd,
      face_rhs c surface thickness face
        = face_rhs_spec c surface thickness face := by
    intro face
    funext i
    unfold face_rhs face_rhs_spec
    split
    · refine Finset.sum_congr rfl fun q _ => ?_
      unfold fill_cell_rhs_neumann neumann_value neumann_value_spec
      refine congrArg (fun z => z * face.JxW q) ?_
      refine Finset.sum_congr rfl fun comp _ => ?_
      ring
    · rfl
  constructor
  · funext i
    unfold cell_rhs_neumann
    exact Finset.sum_congr rfl fun f _ => by rw [hface]
  · intro face hnot
    funext i
    unfold face_rhs
    exact if_neg hnot

/-- C2 witness: a concrete boundary face carrying tag 0 receives no Neumann
contribution. -/
theorem calving_front_neumann_witness :
    ¬ (faceDirichletCx.at_boundary = true
        ∧ faceDirichletCx.boundary_indicator = 1)
    ∧ face_rhs constsCx (fun _ => (1 : ℝ)) (fun _ => (1 : ℝ)) faceDirichletCx
        = (fun _ => 0) := by
  have hnot : ¬ (faceDirichletCx.at_boundary = true
      ∧ faceDirichletCx.boundary_indicator = 1) := by
    simp [faceDirichletCx, faceCx]
  exact ⟨hnot,
    (calving_front_neumann constsCx (fun _ => (1 : ℝ)) (fun _ => (1 : ℝ))
      (fun _ => faceDirichletCx)).2 faceDirichletCx hnot⟩


/-- C3: the nonlinear solver performs exactly five Picard iterations:
iteration 0 assembles with the linear assembler at the constant viscosity
nu_guess = B * (0.2^2)^(-1/3) without reading the velocity field, and each
of iterations 1 through 4 assembles with the nonlinear assembler evaluated
at the velocity produced by the immediately preceding iteration; each
iteration solves the linear system and then applies the hanging-node
constraint redistribution to the solution. -/
theorem picard_five_iterations {Sys Pre Sol Err : Type} (c : PhysConsts)
    (E : SolveEnv Sys Pre Sol Err) (s0 : Sol) :
    ShallowShelf_solve c E s0 = picard_chain_spec c E s0 := by
  have harg : ((0.2 : ℝ) ^ 2) = strain_rate * strain_rate := by
    simp [strain_rate, pow_two]
  have hnu : B c * Real.rpow ((0.2 : ℝ) ^ 2) (-1 / 3 : ℝ) = nu_guess c := by
    rw [harg]
    rfl
  unfold picard_chain_spec
  rw [hnu]
  unfold ShallowShelf_solve
  rw [show List.range 5 = [0, 1, 2, 3, 4] from rfl]
  simp only [List.foldlM_cons, List.foldlM_nil, bind_pure, Nat.reduceEqDiff,
    reduceIte]

/-- C8: every linear solve inside the Picard loop works under the solver
control with iteration cap 1000 and residual tolerance 1e-12, receives a
preconditioner built from the matrix assembled in the same iteration, and
on exceeding the cap fails as a hard error that propagates out of the
solver loop uncaught, with no retry and no fallback. -/
theorem cg_solver_hard_error {Sys Pre Sol Err : Type} (c : PhysConsts)
    (E : SolveEnv Sys Pre Sol Err) (s0 : Sol) :
    (solver_control_max_steps = 1000
      ∧ solver_control_tolerance = 1 / 1000000000000)
    ∧ (∀ (choice : AssemblerChoice Sol) (s : Sol),
        picard_iteration E choice s
          = Except.map E.distribute
              (cg_solve E solver_control_tolerance solver_control_max_steps
                (E.assemble_system choice)
                (E.precondition (E.assemble_system choice))
                (E.apply_boundary_values s)))
    ∧ (∀ (sys : Sys) (p : Pre) (s : Sol),
        solver_control_max_steps
            < E.cg_iters_needed solver_control_tolerance sys p s →
        cg_solve E solver_control_tolerance solver_control_max_steps sys p s
          = Except.error (E.cg_failure sys))
    ∧ (solver_control_max_steps
          < E.cg_iters_needed solver_control_tolerance
              (E.assemble_system (AssemblerChoice.linear (nu_guess c)))
              (E.precondition
                (E.assemble_system (AssemblerChoice.linear (nu_guess c))))
              (E.apply_boundary_values s0) →
        ShallowShelf_solve c E s0
          = Except.error (E.cg_failure
              (E.assemble_system (AssemblerChoice.linear (nu_guess c))))) := by
  have hcg : ∀ (sys : Sys) (p : Pre) (s : Sol),
      solver_control_max_steps
          < E.cg_iters_needed solver_control_tolerance sys p s →
      cg_solve E solver_control_tolerance solver_control_max_steps sys p s
        = Except.error (E.cg_failure sys) := by
    intro sys p s h
    unfold cg_solve
    rw [if_neg (not_le.mpr h)]
  refine ⟨⟨rfl, rfl⟩, fun choice s => rfl, hcg, fun h => ?_⟩
  have h0 : picard_iteration E (AssemblerChoice.linear (nu_guess c)) s0
      = Except.error (E.cg_failure
          (E.assemble_system (AssemblerChoice.linear (nu_guess c)))) := by
    show Except.map E.distribute
        (cg_solve E solver_control_tolerance solver_control_max_steps
          (E.assemble_system (AssemblerChoice.linear (nu_guess c)))
          (E.precondition
            (E.assemble_system (AssemblerChoice.linear (nu_guess c))))
          (E.apply_boundary_values s0))
      = Except.error (E.cg_failure
          (E.assemble_system (AssemblerChoice.linear (nu_guess c))))
    rw [hcg _ _ _ h]
    rfl
  unfold ShallowShelf_solve
  rw [show List.range 5 = [0, 1, 2, 3, 4] from rfl]
  simp only [List.foldlM_cons, List.foldlM_nil, Nat.reduceEqDiff, reduceIte]
  rw [h0]
  rfl

/-- C8 witness: in a concrete environment whose conjugate-gradient solve
needs 1001 iterations, one more than the cap, the whole nonlinear solve
returns the hard error. -/
theorem cg_solver_hard_error_witness :
    solver_control_max_steps
        < solveEnvW.cg_iters_needed solver_control_tolerance
            (solveEnvW.assemble_system
              (AssemblerChoice.linear (nu_guess constsCx)))
            (solveEnvW.precondition (solveEnvW.assemble_system
              (AssemblerChoice.linear (nu_guess constsCx))))
            (solveEnvW.apply_boundary_values ())
    ∧ ShallowShelf_solve constsCx solveEnvW () = Except.error () := by
  have h : solver_control_max_steps
      < solveEnvW.cg_iters_needed solver_control_tolerance
          (solveEnvW.assemble_system
            (AssemblerChoice.linear (nu_guess constsCx)))
          (solveEnvW.precondition (solveEnvW.assemble_system
            (AssemblerChoice.linear (nu_guess constsCx))))
          (solveEnvW.apply_boundary_values ()) := by
    norm_num [solveEnvW, solver_control_max_steps]
  exact ⟨h, (cg_solver_hard_error constsCx solveEnvW ()).2.2.2 h⟩

/-- C7: the driver runs exactly three adaptive cycles: cycle 0 refines the
mesh globally and sets the system up fresh (distributing degrees of
freedom, building constraints, interpolating the boundary velocity); each
cycle from 1 on estimates the per-element error, marks the top 30 percent
of elements for refinement and the bottom 3 percent for coarsening under
the fixed-number policy, interpolates the old solution onto the new mesh,
re-imposes exact Dirichlet values on boundary-tag-0 degrees of freedom,
rebuilds the hanging-node constraints and reinitializes the global system
before the next nonlinear solve. -/
theorem run_three_cycles :
    run_trace = run_cycle_trace 0 ++ run_cycle_trace 1 ++ run_cycle_trace 2
    ∧ run_cycle_trace 0
      = [RunEvent.refineGlobal 2, RunEvent.distributeDofs,
         RunEvent.rebuildConstraints, RunEvent.interpolateBoundaryVelocity,
         RunEvent.reinitSystem, RunEvent.solveNonlinear,
         RunEvent.outputResults 0]
    ∧ run_cycle_trace 1
      = [RunEvent.estimateError,
         RunEvent.markFixedNumber (3 / 10) (3 / 100),
         RunEvent.executeRefinement, RunEvent.distributeDofs,
         RunEvent.interpolateSolution, RunEvent.imposeDirichlet 0,
         RunEvent.rebuildConstraints, RunEvent.distributeConstraints,
         RunEvent.reinitSystem, RunEvent.reinitSystem,
         RunEvent.solveNonlinear, RunEvent.outputResults 1]
    ∧ run_cycle_trace 2
      = [RunEvent.estimateError,
         RunEvent.markFixedNumber (3 / 10) (3 / 100),
         RunEvent.executeRefinement, RunEvent.distributeDofs,
         RunEvent.interpolateSolution, RunEvent.imposeDirichlet 0,
         RunEvent.rebuildConstraints, RunEvent.distributeConstraints,
         RunEvent.reinitSystem, RunEvent.reinitSystem,
         RunEvent.solveNonlinear, RunEvent.outputResults 2]
    ∧ run_trace.count RunEvent.solveNonlinear = 3 :=
  ⟨rfl, rfl, rfl, rfl, rfl⟩

end ShallowShelfApproximation
